import Mathlib

/-!
Verification of the ProGo protein-evaluation pipeline
(`src/pipeline/plddt_extractor.py`, `src/pipeline/tm_score_calculator.py`,
`src/analysis/results_analyzer.py`, `src/main.py`).

The Python code is embedded shallowly:

* Python floats are modelled as rationals `ℚ` (the code performs only
  field arithmetic and comparisons on them); the one square root
  (`statistics.stdev` / `np.std`) is modelled in `ℝ` via `Real.sqrt`.
* Python dicts that map sequence ids to values are modelled as
  association lists `List (String × α)` iterated in insertion order,
  which is exactly how Python iterates a dict.
* The external Foldseek subprocess is modelled by a `ToolOutcome` value
  recording what the invocation produced (exit status / parsed score
  lines); filesystem existence checks are booleans supplied by the
  environment.
-/

namespace ProGo

/-! ## Basic list statistics (Python `statistics` / `numpy`) -/

/-- `statistics.mean` / `np.mean`: arithmetic mean.  (Python raises on an
empty list; all call sites in the code guard for non-emptiness, and on an
empty list this model returns `0` since `0 / 0 = 0` in `ℚ`.) -/
def mean (l : List ℚ) : ℚ := l.sum / l.length

/-- Python `min(l)` over a non-empty list (`0` on `[]`, which no call site
reaches). -/
def listMin : List ℚ → ℚ
  | [] => 0
  | x :: xs => xs.foldl min x

/-- Python `max(l)` over a non-empty list (`0` on `[]`, which no call site
reaches). -/
def listMax : List ℚ → ℚ
  | [] => 0
  | x :: xs => xs.foldl max x

/-- `statistics.median` / `np.median`: sort; middle element for odd length,
mean of the two middle elements for even length. -/
def median (l : List ℚ) : ℚ :=
  let s := l.mergeSort (fun a b => a ≤ b)
  let n := l.length
  if n % 2 = 1 then s.getD (n / 2) 0
  else (s.getD (n / 2 - 1) 0 + s.getD (n / 2) 0) / 2

/-- Sum of squared deviations from the mean, the common core of
`statistics.variance` and `np.var`. -/
def sumSqDev (l : List ℚ) : ℚ := (l.map (fun x => (x - mean l) ^ 2)).sum

/-- `statistics.variance`: the SAMPLE variance, denominator `n - 1`
(Bessel's correction).  Used by `PLDDTExtractor.calculate_sequence_statistics`. -/
def sampleVariance (l : List ℚ) : ℚ := sumSqDev l / ((l.length : ℚ) - 1)

/-- `np.var` (default `ddof=0`): the POPULATION variance, denominator `n`.
Used by `ResultsAnalyzer._calculate_statistics`.  This is also the
"population variance" in the spec's sense. -/
def popVariance (l : List ℚ) : ℚ := sumSqDev l / (l.length : ℚ)

/-- `statistics.stdev`: square root of the sample variance. -/
noncomputable def sampleStdev (l : List ℚ) : ℝ := Real.sqrt (sampleVariance l)

/-- `np.std`: square root of the population variance. -/
noncomputable def npStd (l : List ℚ) : ℝ := Real.sqrt (popVariance l)

/-! ## Confidence extractor (`plddt_extractor.py`) -/

/-- What the B-factor column (chars 60–66, stripped) of one `ATOM` line
holds: empty (skipped), a value `float()` accepts, or a non-empty string
`float()` rejects (which raises, aborting the whole extraction). -/
inductive BField where
  | empty : BField
  | value : ℚ → BField
  | malformed : BField
deriving DecidableEq, Repr

/-- One line of a PDB file, as far as `extract_plddt_scores` looks at it:
whether it starts with `"ATOM"`, and its B-factor column. -/
structure PDBLine where
  isAtom : Bool
  bfactor : BField
deriving DecidableEq, Repr

/-- `PLDDTExtractor.extract_plddt_scores`: collect the parsed B-factor of
every `ATOM` line; any `ATOM` line whose non-empty B-factor string fails
`float()` raises inside the `try`, and the handler returns `[]`. -/
def extract_plddt_scores (lines : List PDBLine) : List ℚ :=
  if lines.any (fun l => l.isAtom && l.bfactor == BField.malformed) then []
  else lines.filterMap (fun l =>
    if l.isAtom then
      match l.bfactor with
      | BField.value q => some q
      | _ => none
    else none)

/-- The statistics dict built by
`PLDDTExtractor.calculate_sequence_statistics` (the `std_dev_plddt` entry,
the only irrational value, is modelled by the separate function
`std_dev_plddt` below). -/
structure SeqStats where
  avg_plddt : ℚ
  min_plddt : ℚ
  max_plddt : ℚ
  median_plddt : ℚ
  variance_plddt : ℚ
  sequence_length : ℕ
  valid_scores : ℕ
deriving DecidableEq, Repr

/-- The all-zero statistics dict returned for an empty score list. -/
def zeroSeqStats : SeqStats :=
  { avg_plddt := 0, min_plddt := 0, max_plddt := 0, median_plddt := 0
    variance_plddt := 0, sequence_length := 0, valid_scores := 0 }

/-- `PLDDTExtractor.calculate_sequence_statistics`: all-zero dict on an
empty list; otherwise mean/min/max/median/length, and the sample variance
when more than one sample (else `0`). -/
def calculate_sequence_statistics (scores : List ℚ) : SeqStats :=
  if scores.isEmpty then zeroSeqStats
  else
    { avg_plddt := mean scores
      min_plddt := listMin scores
      max_plddt := listMax scores
      median_plddt := median scores
      variance_plddt := if 1 < scores.length then sampleVariance scores else 0
      sequence_length := scores.length
      valid_scores := scores.length }

/-- The `std_dev_plddt` entry of the same dict: `statistics.stdev` when
more than one sample, else `0.0`. -/
noncomputable def std_dev_plddt (scores : List ℚ) : ℝ :=
  if 1 < scores.length then sampleStdev scores else 0

/-- One entry of a threshold-count dict: count of scores meeting or
exceeding the threshold, and that count as a percentage of the total. -/
structure ThresholdEntry where
  threshold : ℚ
  count : ℕ
  percentage : ℚ
deriving DecidableEq, Repr

/-- `PLDDTExtractor.calculate_threshold_counts`: empty dict for an empty
list; otherwise, for each threshold in `[0, 10, ..., 100]`, the count of
scores `≥` the threshold and its percentage of the total. -/
def calculate_threshold_counts (scores : List ℚ) : List ThresholdEntry :=
  if scores.isEmpty then []
  else (List.range 11).map (fun (i : ℕ) =>
    let t : ℚ := (i : ℚ) * 10
    let c := scores.countP (fun s => t ≤ s)
    { threshold := t, count := c
      percentage := (c : ℚ) / (scores.length : ℚ) * 100 })

/-- The per-file analysis dict built by `PLDDTExtractor.extract_and_analyze`. -/
structure PlddtAnalysis where
  statistics : SeqStats
  threshold_counts : List ThresholdEntry
  raw_scores : List ℚ
deriving DecidableEq, Repr

/-- `PLDDTExtractor.extract_and_analyze`: `None` if the file is missing or
no scores were extracted (the empty-result marker — a plain return, not a
raised error); otherwise the statistics and threshold counts. -/
def extract_and_analyze (fileExists : Bool) (lines : List PDBLine) :
    Option PlddtAnalysis :=
  if !fileExists then none
  else
    let scores := extract_plddt_scores lines
    if scores.isEmpty then none
    else some { statistics := calculate_sequence_statistics scores
                threshold_counts := calculate_threshold_counts scores
                raw_scores := scores }

/-- One entry of the dict returned by `PLDDTExtractor.batch_extract`. -/
structure BatchPlddtEntry where
  statistics : SeqStats
  threshold_counts : List ThresholdEntry
  error : Option String
deriving DecidableEq, Repr

/-- `PLDDTExtractor.batch_extract`: per sequence id, the analysis if
`extract_and_analyze` produced one, else a placeholder with all-zero
statistics and an error note. -/
def batch_extract (preds : List (String × (Bool × List PDBLine))) :
    List (String × BatchPlddtEntry) :=
  preds.map (fun p =>
    match extract_and_analyze p.2.1 p.2.2 with
    | some a => (p.1, { statistics := a.statistics
                        threshold_counts := a.threshold_counts
                        error := none })
    | none => (p.1, { statistics := zeroSeqStats
                      threshold_counts := []
                      error := some "Failed to extract pLDDT scores" }))

/-! ## Structure comparator (`tm_score_calculator.py`)

The Foldseek subprocess run for one predicted structure is abstracted into
a `ToolOutcome`: either the process exited `0` and its output file parsed
into a list of scores (lines with `≥ 3` tab-separated fields; the third
field is the score), or it exited non-zero with some stderr text, or the
invocation raised an exception. -/

/-- Outcome of one `subprocess.run` of Foldseek plus the parsing of its
output file. -/
inductive ToolOutcome where
  | success : List ℚ → ToolOutcome
  | toolError : String → ToolOutcome
  | exn : String → ToolOutcome
deriving DecidableEq, Repr

/-- One per-sequence entry of the dict returned by
`TMScoreCalculator.compare_structures`. -/
structure CompResult where
  max_score : ℚ
  avg_score : ℚ
  num_comparisons : ℕ
  error : Option String
deriving DecidableEq, Repr

/-- The body of the per-sequence loop of
`TMScoreCalculator.compare_structures`: an error entry if the Foldseek
binary is missing; otherwise, on exit `0`, max/avg/count of the parsed
scores (all-zero, no error, when there are none), and an all-zero error
entry on non-zero exit or exception. -/
def compareEntry (binaryFound : Bool) (outcome : ToolOutcome) : CompResult :=
  if !binaryFound then
    { max_score := 0, avg_score := 0, num_comparisons := 0
      error := some "Foldseek binary not found" }
  else
    match outcome with
    | ToolOutcome.success scores =>
        if scores.isEmpty then
          { max_score := 0, avg_score := 0, num_comparisons := 0, error := none }
        else
          { max_score := listMax scores
            avg_score := scores.sum / (scores.length : ℚ)
            num_comparisons := scores.length
            error := none }
    | ToolOutcome.toolError stderr =>
        { max_score := 0, avg_score := 0, num_comparisons := 0, error := some stderr }
    | ToolOutcome.exn msg =>
        { max_score := 0, avg_score := 0, num_comparisons := 0, error := some msg }

/-- `TMScoreCalculator.compare_structures`: if the ground-truth directory
does not exist, return the empty dict at once; otherwise one
`compareEntry` per input sequence id. -/
def compare_structures (gtExists binaryFound : Bool)
    (preds : List (String × ToolOutcome)) : List (String × CompResult) :=
  if !gtExists then []
  else preds.map (fun p => (p.1, compareEntry binaryFound p.2))

/-- `TMScoreCalculator.compare_with_ground_truth_set`: run
`compare_structures` on the singleton dict and look the id back up; the
result is the `best_match` value (`None` when the id is absent). -/
def compare_with_ground_truth_set (gtExists binaryFound : Bool)
    (sid : String) (outcome : ToolOutcome) : Option CompResult :=
  (compare_structures gtExists binaryFound [(sid, outcome)]).lookup sid

/-- The running best-overall update of `TMScoreCalculator.batch_calculate`:
keep the incumbent unless the new `best_match` exists and has a strictly
greater `max_score` (or there is no incumbent yet). -/
def bestOvStep (acc : Option CompResult) (bm : Option CompResult) :
    Option CompResult :=
  match bm with
  | none => acc
  | some b =>
      match acc with
      | none => some b
      | some a => if a.max_score < b.max_score then some b else some a

/-- `TMScoreCalculator.batch_calculate`: the per-sequence `best_match`
mapping, plus the `best_overall` entry appended to it (modelled as the
second component since its value has a different shape from the
per-sequence entries). -/
def batch_calculate (gtExists binaryFound : Bool)
    (preds : List (String × ToolOutcome)) :
    List (String × Option CompResult) × Option CompResult :=
  let perSeq := preds.map (fun p =>
    (p.1, compare_with_ground_truth_set gtExists binaryFound p.1 p.2))
  (perSeq, perSeq.foldl (fun acc p => bestOvStep acc p.2) none)

/-! ## Results aggregator (`results_analyzer.py`) -/

/-- One per-sequence value of the comparison-results dict handed to
`ResultsAnalyzer.analyze_results`: its `best_match` entry and its optional
top-level `error` entry (the shape `batch_calculate` produces). -/
structure SeqEntry where
  best_match : Option CompResult
  error : Option String
deriving DecidableEq, Repr

/-- The success test of the analyzer loop:
`result["best_match"] and "error" not in result["best_match"]`. -/
def entrySuccess (e : SeqEntry) : Bool :=
  match e.best_match with
  | some bm => bm.error.isNone
  | none => false

/-- One entry of the analyzer's `reference_matches` list. -/
structure RefMatch where
  query_id : String
  reference_id : String
  sequence_length : ℕ
deriving DecidableEq, Repr

/-- One entry of the analyzer's `skipped_duplicate_sequences` list (its
`reason` entry is a constant string and is left out). -/
structure SkippedDup where
  query_id : String
  reference_id : String
deriving DecidableEq, Repr

/-- The exact-match scan of `analyze_results`: when both original and
reference sequences are available, for each original sequence not already
known as a skipped duplicate, record the first reference sequence equal to
it verbatim (the inner loop `break`s after the first hit). -/
def refMatchScan (origs refs skipped : List (String × String)) :
    List RefMatch :=
  if origs.isEmpty || refs.isEmpty then []
  else origs.filterMap (fun o =>
    if skipped.any (fun s => s.1 == o.1) then none
    else
      match refs.find? (fun r => o.2 == r.2) with
      | some r => some { query_id := o.1, reference_id := r.1
                         sequence_length := o.2.length }
      | none => none)

/-- The pLDDT block merged into each detail record: the stored statistics
when the sequence id has a pLDDT result, else zero placeholders with
`has_plddt := false`.  (The merged `std_dev_plddt` entry is a copy of the
stored value and is left out, as in `SeqStats`.) -/
structure PlddtInfo where
  avg_plddt : ℚ
  min_plddt : ℚ
  max_plddt : ℚ
  median_plddt : ℚ
  sequence_length : ℕ
  has_plddt : Bool
deriving DecidableEq, Repr

/-- Look up the pLDDT statistics for a sequence id and build its
`plddt_info` block. -/
def plddtInfoFor (plddt : List (String × SeqStats)) (sid : String) :
    PlddtInfo :=
  match plddt.lookup sid with
  | some st => { avg_plddt := st.avg_plddt, min_plddt := st.min_plddt
                 max_plddt := st.max_plddt, median_plddt := st.median_plddt
                 sequence_length := st.sequence_length, has_plddt := true }
  | none => { avg_plddt := 0, min_plddt := 0, max_plddt := 0
              median_plddt := 0, sequence_length := 0, has_plddt := false }

/-- One entry of the analyzer's `details` dict. -/
structure Detail where
  max_score : Option ℚ
  avg_score : Option ℚ
  num_comparisons : Option ℕ
  has_tm_score : Bool
  error : Option String
  plddt : PlddtInfo
deriving DecidableEq, Repr

/-- Build one `details` entry (the two branches of the analyzer loop). -/
def mkDetail (plddt : List (String × SeqStats)) (sid : String)
    (e : SeqEntry) : Detail :=
  let info := plddtInfoFor plddt sid
  if entrySuccess e then
    match e.best_match with
    | some bm =>
        { max_score := some bm.max_score, avg_score := some bm.avg_score
          num_comparisons := some bm.num_comparisons, has_tm_score := true
          error := none, plddt := info }
    | none =>
        { max_score := none, avg_score := none, num_comparisons := none
          has_tm_score := false, error := some (e.error.getD "Unknown error")
          plddt := info }
  else
    { max_score := none, avg_score := none, num_comparisons := none
      has_tm_score := false, error := some (e.error.getD "Unknown error")
      plddt := info }

/-- The dict built by `ResultsAnalyzer._calculate_statistics` (numpy
population statistics; its `std_dev` entry is the separate `npStd`). -/
structure NpStats where
  count : ℕ
  avg : ℚ
  med : ℚ
  variance : ℚ
  lo : ℚ
  hi : ℚ
deriving DecidableEq, Repr

/-- `ResultsAnalyzer._calculate_statistics`. -/
def np_statistics (l : List ℚ) : NpStats :=
  { count := l.length, avg := mean l, med := median l
    variance := popVariance l, lo := listMin l, hi := listMax l }

/-- The explicit all-zero statistics dict used when a score list is empty. -/
def zeroNpStats : NpStats :=
  { count := 0, avg := 0, med := 0, variance := 0, lo := 0, hi := 0 }

/-- The analyzer's TM-score threshold sweep (thresholds
`0.0, 0.1, ..., 1.0` over the top TM-scores of this run). -/
def tm_threshold_counts (top : List ℚ) : List ThresholdEntry :=
  (List.range 11).map (fun (i : ℕ) =>
    let t : ℚ := (i : ℚ) / 10
    let c := top.countP (fun s => t ≤ s)
    { threshold := t, count := c
      percentage := if top.isEmpty then 0
                    else (c : ℚ) / (top.length : ℚ) * 100 })

/-- The analyzer's pLDDT threshold sweep (thresholds `0, 10, ..., 100`
over the per-sequence average pLDDTs; the enclosing `if` leaves the dict
empty when that list is empty). -/
def plddt_threshold_counts (avgs : List ℚ) : List ThresholdEntry :=
  if avgs.isEmpty then []
  else (List.range 11).map (fun (i : ℕ) =>
    let t : ℚ := (i : ℚ) * 10
    let c := avgs.countP (fun s => t ≤ s)
    { threshold := t, count := c
      percentage := (c : ℚ) / (avgs.length : ℚ) * 100 })

/-- The `summary` block of the analysis report. -/
structure Summary where
  total_structures : ℕ
  successful_comparisons : ℕ
  failed_comparisons : ℕ
  best_overall_score : ℚ
  average_score : ℚ
  sequences_with_tm_scores : ℕ
  sequences_without_tm_scores : ℕ
  exact_reference_matches : ℕ
  skipped_duplicates : ℕ
  failed_sequences : List String
deriving DecidableEq, Repr

/-- The analysis report built by `ResultsAnalyzer.analyze_results`
(the constant `foldseek_parameters` block is left out). -/
structure Analysis where
  summary : Summary
  details : List (String × Detail)
  reference_matches : List RefMatch
  skipped_duplicate_sequences : List SkippedDup
  threshold_counts : List ThresholdEntry
  plddt_threshold_counts : List ThresholdEntry
  tm_score_statistics : NpStats
  plddt_statistics : NpStats
deriving DecidableEq, Repr

/-- `ResultsAnalyzer.analyze_results`.  `results` is the per-sequence part
of the comparison dict and `bestOv` the value of its `best_overall` key
(`results.get("best_overall")`); the loop skip of the literal key
`"best_overall"` is kept.  `origs` are the sequences read from the FASTA
file, `refs` the analyzer's reference sequences, `skipped` the
skipped-duplicates dict, `plddt` the per-sequence pLDDT statistics.  The
single Python loop is expressed as one pass per accumulated quantity over
the same filtered list, in the same order. -/
def analyze_results (results : List (String × SeqEntry))
    (bestOv : Option CompResult) (origs refs skipped : List (String × String))
    (plddt : List (String × SeqStats)) : Analysis :=
  let processed := results.filter (fun p => !(p.1 == "best_overall"))
  let successful := processed.countP (fun p => entrySuccess p.2)
  let failed := processed.countP (fun p => !entrySuccess p.2)
  let top := processed.filterMap (fun p =>
    match p.2.best_match with
    | some bm => if bm.error.isNone then some bm.max_score else none
    | none => none)
  let seqsWith := processed.filterMap (fun p =>
    if entrySuccess p.2 then some p.1 else none)
  let avgPlddts := processed.filterMap (fun p =>
    (plddt.lookup p.1).map (fun st => st.avg_plddt))
  let mres := refMatchScan origs refs skipped
  { summary :=
      { total_structures := processed.length
        successful_comparisons := successful
        failed_comparisons := failed
        best_overall_score := match bestOv with
          | some b => b.max_score
          | none => 0
        average_score := if 0 < successful then top.sum / (successful : ℚ)
                         else 0
        sequences_with_tm_scores := seqsWith.length
        sequences_without_tm_scores := failed
        exact_reference_matches := skipped.length + mres.length
        skipped_duplicates := skipped.length
        failed_sequences := processed.filterMap (fun p =>
          if entrySuccess p.2 then none else some p.1) }
    details := processed.map (fun p => (p.1, mkDetail plddt p.1 p.2))
    reference_matches := mres
    skipped_duplicate_sequences := skipped.map (fun s =>
      { query_id := s.1, reference_id := s.2 })
    threshold_counts := tm_threshold_counts top
    plddt_threshold_counts := plddt_threshold_counts avgPlddts
    tm_score_statistics := if top.isEmpty then zeroNpStats
                           else np_statistics top
    plddt_statistics := if avgPlddts.isEmpty then zeroNpStats
                        else np_statistics avgPlddts }

/-! ## The evaluation phase of `main.py` -/

/-- The evaluation phase of `main`: if the ground-truth directory is
missing, `sys.exit(1)` before any comparison or report (`none`); otherwise
run `batch_calculate` and feed its output to `analyze_results`, producing
the report that `save_analysis` then writes. -/
def runPipeline (gtExists binaryFound : Bool)
    (preds : List (String × ToolOutcome))
    (origs refs skipped : List (String × String))
    (plddt : List (String × SeqStats)) : Option Analysis :=
  if !gtExists then none
  else
    let bc := batch_calculate gtExists binaryFound preds
    some (analyze_results
      (bc.1.map (fun p => (p.1, { best_match := p.2, error := none })))
      bc.2 origs refs skipped plddt)

/-! ## Helper lemmas -/

lemma le_foldl_max (xs : List ℚ) (a : ℚ) : a ≤ xs.foldl max a := by
  induction xs generalizing a with
  | nil => simp
  | cons x xs ih => exact le_trans (le_max_left a x) (ih (max a x))

lemma mem_le_foldl_max {y : ℚ} {xs : List ℚ} (a : ℚ) (hy : y ∈ xs) :
    y ≤ xs.foldl max a := by
  induction xs generalizing a with
  | nil => cases hy
  | cons x xs ih =>
      rcases List.mem_cons.mp hy with h | h
      · subst h
        exact le_trans (le_max_right a y) (le_foldl_max xs (max a y))
      · exact ih (max a x) h

lemma le_listMax {y : ℚ} {l : List ℚ} (hy : y ∈ l) : y ≤ listMax l := by
  cases l with
  | nil => cases hy
  | cons x xs =>
      show y ≤ xs.foldl max x
      rcases List.mem_cons.mp hy with h | h
      · subst h; exact le_foldl_max xs y
      · exact mem_le_foldl_max x h

lemma sum_le_card_mul_listMax (l : List ℚ) :
    l.sum ≤ (l.length : ℚ) * listMax l := by
  have h := List.sum_le_card_nsmul l (listMax l) (fun x hx => le_listMax hx)
  simpa [nsmul_eq_mul] using h

lemma avg_le_listMax {l : List ℚ} (h : l ≠ []) :
    l.sum / (l.length : ℚ) ≤ listMax l := by
  have hlen : 0 < (l.length : ℚ) := by
    exact_mod_cast List.length_pos.mpr h
  rw [div_le_iff₀ hlen, mul_comm]
  exact sum_le_card_mul_listMax l

lemma sumSqDev_nonneg (l : List ℚ) : 0 ≤ sumSqDev l := by
  apply List.sum_nonneg
  intro x hx
  rcases List.mem_map.mp hx with ⟨y, _, rfl⟩
  exact sq_nonneg _

lemma popVariance_nonneg (l : List ℚ) : 0 ≤ popVariance l :=
  div_nonneg (sumSqDev_nonneg l) (by exact_mod_cast Nat.zero_le _)

lemma sampleVariance_nonneg {l : List ℚ} (h : 2 ≤ l.length) :
    0 ≤ sampleVariance l := by
  apply div_nonneg (sumSqDev_nonneg l)
  have : (2 : ℚ) ≤ (l.length : ℚ) := by exact_mod_cast h
  linarith

lemma countP_threshold_mono (l : List ℚ) {t t' : ℚ} (h : t ≤ t') :
    l.countP (fun s => decide (t' ≤ s)) ≤ l.countP (fun s => decide (t ≤ s)) := by
  apply List.countP_mono_left
  intro x _ hx
  simp only [decide_eq_true_eq] at hx ⊢
  exact le_trans h hx

lemma countP_threshold_zero {l : List ℚ} (h : ∀ s ∈ l, 0 ≤ s) :
    l.countP (fun s => decide ((0 : ℚ) ≤ s)) = l.length := by
  rw [List.countP_eq_length]
  intro a ha
  simpa using h a ha

lemma getD_map_range {α : Type} (f : ℕ → α) {n i : ℕ} (h : i < n) (d : α) :
    ((List.range n).map f).getD i d = f i := by
  rw [List.getD_eq_getElem?_getD, List.getElem?_map, List.getElem?_range h]
  rfl

lemma bestOv_foldl_spec (l : List (Option CompResult))
    (acc : Option CompResult) (b : CompResult)
    (hb : l.foldl bestOvStep acc = some b) :
    (some b = acc ∨ some b ∈ l) ∧
    (∀ a, acc = some a → a.max_score ≤ b.max_score) ∧
    (∀ c ∈ l, ∀ cb, c = some cb → cb.max_score ≤ b.max_score) := by
  induction l generalizing acc with
  | nil =>
      simp only [List.foldl_nil] at hb
      refine ⟨Or.inl hb.symm, ?_, ?_⟩
      · intro a ha
        rw [ha] at hb
        cases hb
        exact le_refl _
      · intro c hc
        cases hc
  | cons x xs ih =>
      have hb' : xs.foldl bestOvStep (bestOvStep acc x) = some b := hb
      obtain ⟨hmem, hacc, hxs⟩ := ih (bestOvStep acc x) hb'
      have hstep : ∀ a, acc = some a → a.max_score ≤ b.max_score := by
        intro a ha
        cases x with
        | none =>
            exact hacc a (by simp [bestOvStep, ha])
        | some xc =>
            rw [ha] at hacc
            by_cases hlt : a.max_score < xc.max_score
            · have := hacc xc (by simp [bestOvStep, hlt])
              exact le_trans (le_of_lt hlt) this
            · exact hacc a (by simp [bestOvStep, hlt])
      have hx : ∀ cb, x = some cb → cb.max_score ≤ b.max_score := by
        intro cb hcb
        subst hcb
        cases acc with
        | none => exact hacc cb (by simp [bestOvStep])
        | some a =>
            by_cases hlt : a.max_score < cb.max_score
            · exact hacc cb (by simp [bestOvStep, hlt])
            · have := hacc a (by simp [bestOvStep, hlt])
              exact le_trans (le_of_not_lt hlt) this
      refine ⟨?_, hstep, ?_⟩
      · rcases hmem with h | h
        · cases x with
          | none =>
              simp only [bestOvStep] at h
              exact Or.inl h
          | some xc =>
              cases acc with
              | none =>
                  simp only [bestOvStep] at h
                  exact Or.inr (by rw [h]; exact List.mem_cons_self _ _)
              | some a =>
                  simp only [bestOvStep] at h
                  by_cases hlt : a.max_score < xc.max_score
                  · rw [if_pos hlt] at h
                    exact Or.inr (by rw [h]; exact List.mem_cons_self _ _)
                  · rw [if_neg hlt] at h
                    exact Or.inl h
        · exact Or.inr (List.mem_cons_of_mem _ h)
      · intro c hc cb hcb
        rcases List.mem_cons.mp hc with h | h
        · exact hx cb (h ▸ hcb)
        · exact hxs c h cb hcb

lemma length_eq_countP_add_countP_not {α : Type} (p : α → Bool) (l : List α) :
    l.length = l.countP p + l.countP (fun a => !p a) := by
  induction l with
  | nil => simp
  | cons x xs ih =>
      by_cases hx : p x
      · simp [List.countP_cons, hx, ih]
        omega
      · simp [List.countP_cons, hx, ih]
        omega

/-! ## Claim theorems -/

/-- C1, counterexample: the claim says the reported variance is the
POPULATION variance, but on the score list `[0, 2]` the code
(`statistics.variance`) reports the sample variance `2`, while the
population variance is `1`. -/
theorem variance_not_population_on_two_samples :
    (calculate_sequence_statistics [0, 2]).variance_plddt ≠ popVariance [0, 2] := by
  have h1 : (calculate_sequence_statistics [0, 2]).variance_plddt = 2 := by
    norm_num [calculate_sequence_statistics, sampleVariance, sumSqDev, mean]
  have h2 : popVariance [0, 2] = 1 := by
    norm_num [popVariance, sumSqDev, mean]
  rw [h1, h2]
  norm_num

/-- C1 (amended): for every confidence-score list with at least 2 samples,
the reported variance is the SAMPLE variance (denominator `n - 1`), which
relates to the population variance by `(n-1)·sample = n·population`, and
the reported standard deviation is its square root; with fewer than 2
samples both are reported as 0. -/
theorem plddt_variance_and_stdev_are_sample_statistics (scores : List ℚ) :
    (2 ≤ scores.length →
      (calculate_sequence_statistics scores).variance_plddt = sampleVariance scores ∧
      ((scores.length : ℚ) - 1) *
          (calculate_sequence_statistics scores).variance_plddt
        = (scores.length : ℚ) * popVariance scores ∧
      std_dev_plddt scores = Real.sqrt (sampleVariance scores)) ∧
    (scores.length < 2 →
      (calculate_sequence_statistics scores).variance_plddt = 0 ∧
      std_dev_plddt scores = 0) := by
  constructor
  · intro h2
    have hne : scores.isEmpty = false := by
      cases scores with
      | nil => simp at h2
      | cons x xs => rfl
    have h1 : 1 < scores.length := lt_of_lt_of_le one_lt_two h2
    have hvar : (calculate_sequence_statistics scores).variance_plddt
        = sampleVariance scores := by
      simp [calculate_sequence_statistics, hne, h1]
    refine ⟨hvar, ?_, ?_⟩
    · rw [hvar]
      have hn : ((scores.length : ℚ)) ≠ 0 := by
        have : (2 : ℚ) ≤ (scores.length : ℚ) := by exact_mod_cast h2
        linarith
      have hn1 : ((scores.length : ℚ)) - 1 ≠ 0 := by
        have : (2 : ℚ) ≤ (scores.length : ℚ) := by exact_mod_cast h2
        intro hz
        linarith
      rw [sampleVariance, popVariance]
      field_simp
    · simp [std_dev_plddt, h1, sampleStdev]
  · intro hlt
    match scores, hlt with
    | [], _ => exact ⟨rfl, by simp [std_dev_plddt]⟩
    | [x], _ =>
        refine ⟨?_, ?_⟩
        · simp [calculate_sequence_statistics]
        · simp [std_dev_plddt]

/-- C1, witness for the amended theorem at the list `[0, 2]`. -/
theorem plddt_variance_sample_witness :
    (calculate_sequence_statistics [0, 2]).variance_plddt = sampleVariance [0, 2] :=
  ((plddt_variance_and_stdev_are_sample_statistics [0, 2]).1 (by decide)).1

/-- C3 (confirmed): when no atomic coordinate records parse from a
structure file, `extract_and_analyze` returns the empty-result marker
`none` (an ordinary return value, not a raised error), the statistics
struct for the empty score list has every field equal to zero, and the
batch entry for such a file carries the same all-zero statistics. -/
theorem no_parse_empty_marker_and_zero_stats (fileExists : Bool)
    (lines : List PDBLine) (sid : String)
    (h : extract_plddt_scores lines = []) :
    extract_and_analyze fileExists lines = none ∧
    calculate_sequence_statistics (extract_plddt_scores lines) =
      { avg_plddt := 0, min_plddt := 0, max_plddt := 0, median_plddt := 0
        variance_plddt := 0, sequence_length := 0, valid_scores := 0 } ∧
    std_dev_plddt (extract_plddt_scores lines) = 0 ∧
    (batch_extract [(sid, (fileExists, lines))]).lookup sid =
      some { statistics := zeroSeqStats, threshold_counts := []
             error := some "Failed to extract pLDDT scores" } := by
  have hnone : extract_and_analyze fileExists lines = none := by
    cases fileExists with
    | false => rfl
    | true => simp [extract_and_analyze, h]
  refine ⟨hnone, ?_, ?_, ?_⟩
  · rw [h]
    rfl
  · rw [h]
    simp [std_dev_plddt]
  · simp [batch_extract, hnone, List.lookup]

/-- C3, witness: a file whose only line is not an ATOM record. -/
theorem no_parse_empty_marker_witness :
    extract_and_analyze true [{ isAtom := false, bfactor := BField.value 5 }] = none :=
  (no_parse_empty_marker_and_zero_stats true
    [{ isAtom := false, bfactor := BField.value 5 }] "x" (by decide)).1

/-- Behaviour of one loop iteration of `compare_structures`: the average
never exceeds the maximum, and zero comparisons force both scores to zero. -/
lemma compareEntry_spec (b : Bool) (o : ToolOutcome) :
    (compareEntry b o).avg_score ≤ (compareEntry b o).max_score ∧
    ((compareEntry b o).num_comparisons = 0 →
      (compareEntry b o).max_score = 0 ∧ (compareEntry b o).avg_score = 0) := by
  cases b with
  | false => exact ⟨le_refl _, fun _ => ⟨rfl, rfl⟩⟩
  | true =>
      cases o with
      | toolError e => exact ⟨le_refl _, fun _ => ⟨rfl, rfl⟩⟩
      | exn e => exact ⟨le_refl _, fun _ => ⟨rfl, rfl⟩⟩
      | success scores =>
          cases hsc : scores.isEmpty with
          | true => simp [compareEntry, hsc]
          | false =>
              have hne : scores ≠ [] := by
                cases scores with
                | nil => simp at hsc
                | cons x xs => simp
              constructor
              · simpa [compareEntry, hsc] using avg_le_listMax hne
              · intro hzero
                simp [compareEntry, hsc] at hzero
                exact absurd hzero hne

/-- C6 (confirmed): a sequence whose Foldseek run succeeds but yields zero
scoring lines is recorded with max 0.0, avg 0.0, zero comparisons and no
error field. -/
theorem zero_score_lines_zero_result_no_error
    (preds : List (String × ToolOutcome)) (sid : String)
    (h : (sid, ToolOutcome.success []) ∈ preds) :
    compareEntry true (ToolOutcome.success []) =
      { max_score := 0, avg_score := 0, num_comparisons := 0, error := none } ∧
    (sid, ({ max_score := 0, avg_score := 0, num_comparisons := 0
             error := none } : CompResult)) ∈ compare_structures true true preds := by
  refine ⟨rfl, ?_⟩
  simp only [compare_structures, Bool.not_true, Bool.false_eq_true, if_false]
  exact List.mem_map.mpr ⟨(sid, ToolOutcome.success []), h, rfl⟩

/-- C6, witness at a one-sequence batch. -/
theorem zero_score_lines_witness :
    (("s1", ({ max_score := 0, avg_score := 0, num_comparisons := 0
               error := none } : CompResult)) ∈
      compare_structures true true [("s1", ToolOutcome.success [])]) :=
  (zero_score_lines_zero_result_no_error [("s1", ToolOutcome.success [])] "s1"
    (List.mem_singleton.mpr rfl)).2

/-- C7 (confirmed): for score lists of length at least 2 the extractor's
reported variance is the square of its reported standard deviation, and
for the aggregator's statistics (any non-empty list) the same relation
holds between variance and standard deviation. -/
theorem variance_eq_stdev_squared (scores : List ℚ) :
    (2 ≤ scores.length →
      (std_dev_plddt scores) ^ 2
        = ((calculate_sequence_statistics scores).variance_plddt : ℝ)) ∧
    (scores ≠ [] →
      (npStd scores) ^ 2 = ((np_statistics scores).variance : ℝ)) := by
  constructor
  · intro h2
    have hne : scores.isEmpty = false := by
      cases scores with
      | nil => simp at h2
      | cons x xs => rfl
    have h1 : 1 < scores.length := lt_of_lt_of_le one_lt_two h2
    have hnn : (0 : ℝ) ≤ (sampleVariance scores : ℝ) := by
      exact_mod_cast sampleVariance_nonneg h2
    have hstd : std_dev_plddt scores = Real.sqrt (sampleVariance scores) := by
      simp [std_dev_plddt, h1, sampleStdev]
    have hvar : (calculate_sequence_statistics scores).variance_plddt
        = sampleVariance scores := by
      simp [calculate_sequence_statistics, hne, h1]
    rw [hstd, hvar, Real.sq_sqrt hnn]
  · intro _
    have hnn : (0 : ℝ) ≤ (popVariance scores : ℝ) := by
      exact_mod_cast popVariance_nonneg scores
    simp only [npStd, np_statistics]
    rw [Real.sq_sqrt hnn]

/-- C7, witness at the list `[1, 2]`. -/
theorem variance_eq_stdev_squared_witness :
    (std_dev_plddt [1, 2]) ^ 2
      = ((calculate_sequence_statistics [1, 2]).variance_plddt : ℝ) :=
  (variance_eq_stdev_squared [1, 2]).1 (by decide)

/-- C9 (confirmed): for every comparison-results mapping, the report's
total equals the number of input keys other than the synthetic
best_overall key, the total splits into successful plus failed,
sequences_without_tm_scores equals failed_comparisons, and the details
mapping has exactly one entry per counted input key (same keys, same
order). -/
theorem analyze_results_summary_invariants (results : List (String × SeqEntry))
    (bestOv : Option CompResult) (origs refs skipped : List (String × String))
    (plddt : List (String × SeqStats)) :
    (analyze_results results bestOv origs refs skipped plddt).summary.total_structures
        = (results.filter (fun p => !(p.1 == "best_overall"))).length ∧
    (analyze_results results bestOv origs refs skipped plddt).summary.total_structures
        = (analyze_results results bestOv origs refs skipped plddt).summary.successful_comparisons
          + (analyze_results results bestOv origs refs skipped plddt).summary.failed_comparisons ∧
    (analyze_results results bestOv origs refs skipped plddt).summary.sequences_without_tm_scores
        = (analyze_results results bestOv origs refs skipped plddt).summary.failed_comparisons ∧
    (analyze_results results bestOv origs refs skipped plddt).details.map Prod.fst
        = (results.filter (fun p => !(p.1 == "best_overall"))).map Prod.fst := by
  refine ⟨rfl, ?_, rfl, ?_⟩
  · exact length_eq_countP_add_countP_not
      (fun p => entrySuccess p.2)
      (results.filter (fun p => !(p.1 == "best_overall")))
  · simp [analyze_results, List.map_map, Function.comp]

/-- C10, counterexample: with the ground-truth directory missing,
`compare_structures` returns the empty mapping, so the input sequence id
s1 gets no entry, contrary to the claim that every input id gets one. -/
theorem missing_ground_truth_drops_entries :
    (compare_structures false true
        [("s1", ToolOutcome.success [1/2])]).lookup "s1" = none := rfl

/-- C10 (amended): every per-sequence entry produced by
`compare_structures` has avg_score at most max_score, zero comparisons
force both scores to zero, and — provided the ground-truth directory
exists — there is exactly one entry per input sequence id (same keys,
same order), so one sequence's failure never removes its siblings. -/
theorem compare_structures_entry_invariants (gtExists binaryFound : Bool)
    (preds : List (String × ToolOutcome)) :
    (∀ p ∈ compare_structures gtExists binaryFound preds,
        (Prod.snd p).avg_score ≤ (Prod.snd p).max_score ∧
        ((Prod.snd p).num_comparisons = 0 →
          (Prod.snd p).max_score = 0 ∧ (Prod.snd p).avg_score = 0)) ∧
    (gtExists = true →
        (compare_structures gtExists binaryFound preds).map Prod.fst
          = preds.map Prod.fst) := by
  constructor
  · intro p hp
    cases gtExists with
    | false => cases hp
    | true =>
        simp only [compare_structures, Bool.not_true, Bool.false_eq_true,
          if_false] at hp
        rcases List.mem_map.mp hp with ⟨q, _, rfl⟩
        exact compareEntry_spec binaryFound q.2
  · intro hgt
    subst hgt
    simp [compare_structures, List.map_map, Function.comp]

/-- C10, witness: a two-sequence batch where one sequence's tool run
fails; its entry satisfies the invariants and both ids keep their entries. -/
theorem compare_structures_entry_invariants_witness :
    ((compareEntry true (ToolOutcome.toolError "boom")).avg_score
        ≤ (compareEntry true (ToolOutcome.toolError "boom")).max_score) ∧
    (compare_structures true true
        [("s1", ToolOutcome.toolError "boom"), ("s2", ToolOutcome.success [1/2])]).map Prod.fst
      = ["s1", "s2"] := by
  have h := compare_structures_entry_invariants true true
    [("s1", ToolOutcome.toolError "boom"), ("s2", ToolOutcome.success [1/2])]
  refine ⟨?_, h.2 rfl⟩
  exact (h.1 ("s1", compareEntry true (ToolOutcome.toolError "boom"))
    (by simp [compare_structures])).1

lemma tm_threshold_counts_getD (scores : List ℚ) {i : ℕ} (hi : i < 11)
    (d : ThresholdEntry) :
    (tm_threshold_counts scores).getD i d =
      { threshold := (i : ℚ) / 10
        count := scores.countP (fun s => decide ((i : ℚ) / 10 ≤ s))
        percentage := if scores.isEmpty then 0
                      else (scores.countP (fun s => decide ((i : ℚ) / 10 ≤ s)) : ℚ)
                            / (scores.length : ℚ) * 100 } := by
  rw [tm_threshold_counts, getD_map_range _ hi]

lemma calculate_threshold_counts_getD (scores : List ℚ)
    (hne : scores.isEmpty = false) {i : ℕ} (hi : i < 11) (d : ThresholdEntry) :
    (calculate_threshold_counts scores).getD i d =
      { threshold := (i : ℚ) * 10
        count := scores.countP (fun s => decide ((i : ℚ) * 10 ≤ s))
        percentage := (scores.countP (fun s => decide ((i : ℚ) * 10 ≤ s)) : ℚ)
                        / (scores.length : ℚ) * 100 } := by
  rw [calculate_threshold_counts, if_neg (by simp [hne]), getD_map_range _ hi]

lemma plddt_threshold_counts_getD (scores : List ℚ)
    (hne : scores.isEmpty = false) {i : ℕ} (hi : i < 11) (d : ThresholdEntry) :
    (plddt_threshold_counts scores).getD i d =
      { threshold := (i : ℚ) * 10
        count := scores.countP (fun s => decide ((i : ℚ) * 10 ≤ s))
        percentage := (scores.countP (fun s => decide ((i : ℚ) * 10 ≤ s)) : ℚ)
                        / (scores.length : ℚ) * 100 } := by
  rw [plddt_threshold_counts, if_neg (by simp [hne]), getD_map_range _ hi]

/-- C5, counterexample: on the score list containing the single negative
score -1 (scores are not clamped), the count at threshold 0 is 0, not the
total sample count 1 — in both the TM-score sweep and the pLDDT sweep. -/
theorem threshold_zero_count_fails_on_negative_score :
    ((tm_threshold_counts [-1]).getD 0 ⟨99, 99, 99⟩).count
        ≠ ([(-1 : ℚ)]).length ∧
    ((calculate_threshold_counts [-1]).getD 0 ⟨99, 99, 99⟩).count
        ≠ ([(-1 : ℚ)]).length := by
  constructor
  · rw [tm_threshold_counts_getD _ (by norm_num)]
    norm_num [List.countP_cons]
  · rw [calculate_threshold_counts_getD [-1] rfl (by norm_num)]
    norm_num [List.countP_cons]

/-- C5 (amended): for every score list whose entries are nonnegative, the
count at threshold 0 equals the total number of samples (for the
TM-score sweep unconditionally; for the two pLDDT sweeps whenever the
sweep emits entries at all, i.e. the list is non-empty), and for every
score list the count is monotonically non-increasing as the threshold
increases. -/
theorem threshold_sweeps_anchor_and_monotone (scores : List ℚ) (i j : ℕ)
    (hij : i ≤ j) (hj : j < 11) :
    ((∀ s ∈ scores, 0 ≤ s) →
      ((tm_threshold_counts scores).getD 0 ⟨99, 99, 99⟩).count = scores.length) ∧
    ((∀ s ∈ scores, 0 ≤ s) → scores ≠ [] →
      ((calculate_threshold_counts scores).getD 0 ⟨99, 99, 99⟩).count
        = scores.length) ∧
    ((∀ s ∈ scores, 0 ≤ s) → scores ≠ [] →
      ((plddt_threshold_counts scores).getD 0 ⟨99, 99, 99⟩).count
        = scores.length) ∧
    ((tm_threshold_counts scores).getD j ⟨99, 99, 99⟩).count
        ≤ ((tm_threshold_counts scores).getD i ⟨99, 99, 99⟩).count ∧
    ((calculate_threshold_counts scores).getD j ⟨99, 99, 99⟩).count
        ≤ ((calculate_threshold_counts scores).getD i ⟨99, 99, 99⟩).count ∧
    ((plddt_threshold_counts scores).getD j ⟨99, 99, 99⟩).count
        ≤ ((plddt_threshold_counts scores).getD i ⟨99, 99, 99⟩).count := by
  have hi : i < 11 := lt_of_le_of_lt hij hj
  have hcast : ((i : ℚ)) ≤ (j : ℚ) := by exact_mod_cast hij
  have hdiv : (i : ℚ) / 10 ≤ (j : ℚ) / 10 := by linarith
  have hmul : (i : ℚ) * 10 ≤ (j : ℚ) * 10 := by linarith
  refine ⟨?_, ?_, ?_, ?_, ?_, ?_⟩
  · intro hpos
    rw [tm_threshold_counts_getD scores (by norm_num)]
    show scores.countP _ = scores.length
    simp only [Nat.cast_zero, zero_div]
    exact countP_threshold_zero hpos
  · intro hpos hne
    have hsc : scores.isEmpty = false := by
      cases scores with
      | nil => exact absurd rfl hne
      | cons x xs => rfl
    rw [calculate_threshold_counts_getD scores hsc (by norm_num)]
    show scores.countP _ = scores.length
    simp only [Nat.cast_zero, zero_mul]
    exact countP_threshold_zero hpos
  · intro hpos hne
    have hsc : scores.isEmpty = false := by
      cases scores with
      | nil => exact absurd rfl hne
      | cons x xs => rfl
    rw [plddt_threshold_counts_getD scores hsc (by norm_num)]
    show scores.countP _ = scores.length
    simp only [Nat.cast_zero, zero_mul]
    exact countP_threshold_zero hpos
  · rw [tm_threshold_counts_getD scores hj, tm_threshold_counts_getD scores hi]
    exact countP_threshold_mono scores hdiv
  · cases hsc : scores.isEmpty with
    | true =>
        rw [calculate_threshold_counts, if_pos (by simp [hsc])]
        exact le_refl _
    | false =>
        rw [calculate_threshold_counts_getD scores hsc hj,
          calculate_threshold_counts_getD scores hsc hi]
        exact countP_threshold_mono scores hmul
  · cases hsc : scores.isEmpty with
    | true =>
        rw [plddt_threshold_counts, if_pos (by simp [hsc])]
        exact le_refl _
    | false =>
        rw [plddt_threshold_counts_getD scores hsc hj,
          plddt_threshold_counts_getD scores hsc hi]
        exact countP_threshold_mono scores hmul

/-- C5, witness: the threshold-0 anchor on the nonnegative list with
scores 5 and 80, and monotonicity between the indices 0 and 10 on the
list with the negative score -1 (no nonnegativity needed there). -/
theorem threshold_sweeps_witness :
    ((tm_threshold_counts [5, 80]).getD 0 ⟨99, 99, 99⟩).count
      = ([(5 : ℚ), 80]).length ∧
    ((tm_threshold_counts [-1]).getD 10 ⟨99, 99, 99⟩).count
      ≤ ((tm_threshold_counts [-1]).getD 0 ⟨99, 99, 99⟩).count :=
  ⟨(threshold_sweeps_anchor_and_monotone [5, 80] 0 10 (by norm_num)
      (by norm_num)).1 (by intro s hs; fin_cases hs <;> norm_num),
   (threshold_sweeps_anchor_and_monotone [-1] 0 10 (by norm_num)
      (by norm_num)).2.2.2.1⟩

lemma map_filterMap_sublist {α β γ : Type} (f : α → Option β) (g : β → γ)
    (h : α → γ) (H : ∀ a b, f a = some b → g b = h a) (l : List α) :
    ((l.filterMap f).map g).Sublist (l.map h) := by
  induction l with
  | nil => simp
  | cons x xs ih =>
      cases hx : f x with
      | none =>
          simp only [List.filterMap_cons, hx, List.map_cons]
          exact List.Sublist.cons (h x) ih
      | some b =>
          simp only [List.filterMap_cons, hx, List.map_cons]
          rw [H x b hx]
          exact List.Sublist.cons₂ (h x) ih

lemma refMatchScan_mem {origs refs skipped : List (String × String)}
    {m : RefMatch} (hm : m ∈ refMatchScan origs refs skipped) :
    (∀ s ∈ skipped, m.query_id ≠ s.1) ∧
    ∃ seq, (m.query_id, seq) ∈ origs ∧
      ∃ rseq, refs.find? (fun r => seq == r.2) = some (m.reference_id, rseq) := by
  unfold refMatchScan at hm
  cases he : (origs.isEmpty || refs.isEmpty) with
  | true =>
      rw [if_pos he] at hm
      cases hm
  | false =>
      rw [if_neg (by simp [he])] at hm
      rcases List.mem_filterMap.mp hm with ⟨o, ho, hfo⟩
      cases hsk : (skipped.any (fun s => s.1 == o.1)) with
      | true =>
          rw [if_pos hsk] at hfo
          cases hfo
      | false =>
          rw [if_neg (by simp [hsk])] at hfo
          cases hfind : refs.find? (fun r => o.2 == r.2) with
          | none =>
              rw [hfind] at hfo
              cases hfo
          | some r =>
              rw [hfind] at hfo
              cases hfo
              constructor
              · intro s hs
                have hne := List.any_eq_false.mp (by exact_mod_cast hsk) s hs
                show ¬ o.1 = s.1
                intro hqe
                apply hne
                rw [hqe]
                exact beq_self_eq_true s.1
              · refine ⟨o.2, ?_, r.2, ?_⟩
                · show (o.1, o.2) ∈ origs
                  simpa using ho
                · show List.find? (fun r2 => o.2 == r2.2) refs = some (r.1, r.2)
                  simpa using hfind

lemma refMatchScan_query_nodup {origs refs skipped : List (String × String)}
    (hnd : (origs.map Prod.fst).Nodup) :
    ((refMatchScan origs refs skipped).map RefMatch.query_id).Nodup := by
  unfold refMatchScan
  cases he : (origs.isEmpty || refs.isEmpty) with
  | true => simp
  | false =>
      simp only [Bool.false_eq_true, if_false]
      refine List.Nodup.sublist ?_ hnd
      apply map_filterMap_sublist
      intro o m hfo
      cases hsk : (skipped.any (fun s => s.1 == o.1)) with
      | true =>
          rw [if_pos hsk] at hfo
          cases hfo
      | false =>
          rw [if_neg (by simp [hsk])] at hfo
          cases hfind : refs.find? (fun r => o.2 == r.2) with
          | none =>
              rw [hfind] at hfo
              cases hfo
          | some r =>
              rw [hfind] at hfo
              cases hfo
              rfl

lemma countP_query_eq_one {l : List RefMatch} {m : RefMatch}
    (hm : m ∈ l) (hnd : (l.map RefMatch.query_id).Nodup) :
    l.countP (fun m2 => m2.query_id == m.query_id) = 1 := by
  have h1 : (l.map RefMatch.query_id).count m.query_id
      = l.countP (fun m2 => m2.query_id == m.query_id) := by
    unfold List.count
    rw [List.countP_map]
    rfl
  rw [← h1]
  have hmem : m.query_id ∈ l.map RefMatch.query_id :=
    List.mem_map_of_mem RefMatch.query_id hm
  have hle := List.nodup_iff_count_le_one.mp hnd m.query_id
  have hge : 0 < (l.map RefMatch.query_id).count m.query_id :=
    List.count_pos_iff.mpr hmem
  omega

/-- C4 (confirmed): every skipped-duplicates entry is counted exactly once
as a skipped duplicate and exactly once as an exact reference match;
remaining original sequences matching a reference verbatim are recorded at
most once each, the first matching reference winning; sequences in the
skipped-duplicates map are excluded from the verbatim scan; and the
successful-comparison count is unaffected by the skipped map (skipped
entries are never additionally classified as successful). -/
theorem skipped_duplicates_and_exact_match_accounting
    (results : List (String × SeqEntry)) (bestOv : Option CompResult)
    (origs refs skipped skipped2 : List (String × String))
    (plddt : List (String × SeqStats))
    (hnd : (origs.map Prod.fst).Nodup) :
    (analyze_results results bestOv origs refs skipped plddt).summary.skipped_duplicates
        = skipped.length ∧
    (analyze_results results bestOv origs refs skipped plddt).skipped_duplicate_sequences.map
        SkippedDup.query_id = skipped.map Prod.fst ∧
    (analyze_results results bestOv origs refs skipped plddt).summary.exact_reference_matches
        = skipped.length
          + (analyze_results results bestOv origs refs skipped plddt).reference_matches.length ∧
    (∀ m ∈ (analyze_results results bestOv origs refs skipped plddt).reference_matches,
        (∀ s ∈ skipped, m.query_id ≠ s.1) ∧
        (analyze_results results bestOv origs refs skipped plddt).reference_matches.countP
            (fun m2 => m2.query_id == m.query_id) = 1 ∧
        ∃ seq, (m.query_id, seq) ∈ origs ∧
          ∃ rseq, refs.find? (fun r => seq == r.2) = some (m.reference_id, rseq)) ∧
    (analyze_results results bestOv origs refs skipped plddt).summary.successful_comparisons
        = (analyze_results results bestOv origs refs skipped2 plddt).summary.successful_comparisons := by
  refine ⟨rfl, ?_, rfl, ?_, rfl⟩
  · simp [analyze_results, List.map_map, Function.comp]
  · intro m hm
    have hm' : m ∈ refMatchScan origs refs skipped := hm
    obtain ⟨hskip, hex⟩ := refMatchScan_mem hm'
    exact ⟨hskip, countP_query_eq_one hm' (refMatchScan_query_nodup hnd), hex⟩

/-- C4, witness: one skipped duplicate, one original sequence equal to a
reference sequence. -/
theorem skipped_duplicates_accounting_witness :
    (analyze_results [] none [("q1", "AAA")] [("r1", "AAA")]
        [("d1", "r1")] []).summary.skipped_duplicates = 1 :=
  (skipped_duplicates_and_exact_match_accounting [] none [("q1", "AAA")]
    [("r1", "AAA")] [("d1", "r1")] [] [] (by simp)).1

/-- C2, counterexample: with the Foldseek binary missing (and the
ground-truth directory present), the run is NOT aborted — the sequence
still gets a per-sequence error entry and a full report is produced. -/
theorem missing_binary_still_produces_report :
    (runPipeline true false [("s1", ToolOutcome.success [1/2])]
        [] [] [] []).isSome = true ∧
    (batch_calculate true false [("s1", ToolOutcome.success [1/2])]).1.lookup "s1"
      = some (some { max_score := 0, avg_score := 0, num_comparisons := 0
                     error := some "Foldseek binary not found" }) := by
  exact ⟨rfl, rfl⟩

/-- C2 (amended): a missing ground-truth directory is fatal — the
evaluation phase exits before any comparison or report is produced; a
missing Foldseek binary, in contrast, is NOT fatal: every sequence is
recorded with an error entry and the run still produces a report. -/
theorem whole_run_failure_semantics (binaryFound : Bool)
    (preds : List (String × ToolOutcome))
    (origs refs skipped : List (String × String))
    (plddt : List (String × SeqStats)) :
    runPipeline false binaryFound preds origs refs skipped plddt = none ∧
    (∀ p ∈ (batch_calculate true false preds).1,
        Prod.snd p = some { max_score := 0, avg_score := 0, num_comparisons := 0
                            error := some "Foldseek binary not found" }) ∧
    (runPipeline true false preds origs refs skipped plddt).isSome = true := by
  refine ⟨rfl, ?_, rfl⟩
  intro p hp
  simp only [batch_calculate] at hp
  rcases List.mem_map.mp hp with ⟨q, _, rfl⟩
  show compare_with_ground_truth_set true false q.1 q.2 = _
  simp [compare_with_ground_truth_set, compare_structures, compareEntry,
    List.lookup]

/-- C2, witness: one sequence, ground truth present, binary missing. -/
theorem whole_run_failure_semantics_witness :
    Prod.snd ("s1", (batch_calculate true false
        [("s1", ToolOutcome.success [1/2])]).1.headI.2)
      = some ({ max_score := 0, avg_score := 0, num_comparisons := 0
                error := some "Foldseek binary not found" } : CompResult) := by
  have h := (whole_run_failure_semantics false
    [("s1", ToolOutcome.success [1/2])] [] [] [] []).2.1
  exact h ("s1", (batch_calculate true false
    [("s1", ToolOutcome.success [1/2])]).1.headI.2) (by simp [batch_calculate,
      compare_with_ground_truth_set, compare_structures, List.lookup])

/-- C8 (confirmed): the two-sequence scenario — best scores 0.8 and 0.6,
with 0.8 globally best — yields average_score 0.7, best_overall_score 0.8,
count 2 at threshold 0.6 and count 1 at threshold 0.8; and in general the
best_overall entry appended by `batch_calculate` is one of the
per-sequence best matches and carries the maximum best-score. -/
theorem two_sequence_scenario_and_best_overall :
    (∃ A, runPipeline true true
        [("seq1", ToolOutcome.success [4/5]), ("seq2", ToolOutcome.success [3/5])]
        [] [] [] [] = some A ∧
      A.summary.average_score = 7/10 ∧
      A.summary.best_overall_score = 4/5 ∧
      (A.threshold_counts.getD 6 ⟨99, 99, 99⟩).threshold = 3/5 ∧
      (A.threshold_counts.getD 6 ⟨99, 99, 99⟩).count = 2 ∧
      (A.threshold_counts.getD 8 ⟨99, 99, 99⟩).threshold = 4/5 ∧
      (A.threshold_counts.getD 8 ⟨99, 99, 99⟩).count = 1) ∧
    (∀ (gtE bF : Bool) (preds : List (String × ToolOutcome)) (b : CompResult),
      (batch_calculate gtE bF preds).2 = some b →
      some b ∈ (batch_calculate gtE bF preds).1.map Prod.snd ∧
      ∀ q ∈ (batch_calculate gtE bF preds).1, ∀ c, Prod.snd q = some c →
        c.max_score ≤ b.max_score) := by
  constructor
  · have hbatch : batch_calculate true true
        [("seq1", ToolOutcome.success [4/5]), ("seq2", ToolOutcome.success [3/5])]
        = ([("seq1", some { max_score := 4/5, avg_score := 4/5
                            num_comparisons := 1, error := none }),
            ("seq2", some { max_score := 3/5, avg_score := 3/5
                            num_comparisons := 1, error := none })],
           some { max_score := 4/5, avg_score := 4/5
                  num_comparisons := 1, error := none }) := by
      norm_num [batch_calculate, compare_with_ground_truth_set,
        compare_structures, compareEntry, bestOvStep, listMax, List.lookup]
    have hs1 : "seq1" ≠ "best_overall" := by decide
    have hs2 : "seq2" ≠ "best_overall" := by decide
    refine ⟨analyze_results
        [("seq1", { best_match := some ⟨4/5, 4/5, 1, none⟩, error := none }),
         ("seq2", { best_match := some ⟨3/5, 3/5, 1, none⟩, error := none })]
        (some ⟨4/5, 4/5, 1, none⟩)
        [] [] [] [], ?_, ?_, ?_, ?_, ?_, ?_, ?_⟩
    · simp [runPipeline, hbatch]
    · norm_num [analyze_results, entrySuccess, List.filter_cons, List.filter_nil, List.filterMap_cons, List.filterMap_nil, List.countP_cons, List.countP_nil, hs1, hs2]
    · norm_num [analyze_results]
    · norm_num [analyze_results, entrySuccess, List.filter_cons, List.filter_nil, List.filterMap_cons, List.filterMap_nil, List.countP_cons, List.countP_nil, hs1, hs2]
      rw [← List.getD_eq_getElem?_getD, tm_threshold_counts_getD _ (by norm_num)]
      norm_num
    · norm_num [analyze_results, entrySuccess, List.filter_cons, List.filter_nil, List.filterMap_cons, List.filterMap_nil, List.countP_cons, List.countP_nil, hs1, hs2]
      rw [← List.getD_eq_getElem?_getD, tm_threshold_counts_getD _ (by norm_num)]
      norm_num [List.countP_cons, List.countP_nil]
    · norm_num [analyze_results, entrySuccess, List.filter_cons, List.filter_nil, List.filterMap_cons, List.filterMap_nil, List.countP_cons, List.countP_nil, hs1, hs2]
      rw [← List.getD_eq_getElem?_getD, tm_threshold_counts_getD _ (by norm_num)]
      norm_num
    · norm_num [analyze_results, entrySuccess, List.filter_cons, List.filter_nil, List.filterMap_cons, List.filterMap_nil, List.countP_cons, List.countP_nil, hs1, hs2]
      rw [← List.getD_eq_getElem?_getD, tm_threshold_counts_getD _ (by norm_num)]
      norm_num [List.countP_cons, List.countP_nil]
  · intro gtE bF preds b hb
    have hfold : (preds.map (fun p =>
        (p.1, compare_with_ground_truth_set gtE bF p.1 p.2))).foldl
          (fun acc p => bestOvStep acc p.2) none = some b := hb
    have hfold2 : ((preds.map (fun p =>
        (p.1, compare_with_ground_truth_set gtE bF p.1 p.2))).map Prod.snd).foldl
          bestOvStep none = some b := by
      rw [List.foldl_map]
      exact hfold
    obtain ⟨hmem, _, hbound⟩ := bestOv_foldl_spec _ none b hfold2
    constructor
    · rcases hmem with h | h
      · simp at h
      · exact h
    · intro q hq c hc
      exact hbound q.2 (List.mem_map_of_mem Prod.snd hq) c hc

/-- C8, witness: a one-sequence batch whose best_overall entry is that
sequence's best match. -/
theorem two_sequence_scenario_witness :
    some ({ max_score := 1/2, avg_score := 1/2, num_comparisons := 1
            error := none } : CompResult)
      ∈ (batch_calculate true true [("s", ToolOutcome.success [1/2])]).1.map
          Prod.snd := by
  have hb : (batch_calculate true true [("s", ToolOutcome.success [1/2])]).2
      = some { max_score := 1/2, avg_score := 1/2, num_comparisons := 1
               error := none } := by
    norm_num [batch_calculate, compare_with_ground_truth_set,
      compare_structures, compareEntry, bestOvStep, listMax, List.lookup]
  exact (two_sequence_scenario_and_best_overall.2 true true
    [("s", ToolOutcome.success [1/2])] _ hb).1

end ProGo
